import Mathlib

/-!
Shallow embedding of the Triangular-Arbitrage-Bot frontend
(src/src/components/ArbitrageBotDashboard.tsx, both concatenated versions,
and src/src/api/backend.ts), with spec-modelled definitions for the Python
backend pieces that are not part of src/.

Conventions: JavaScript numbers are embedded as ℚ, counters as ℕ,
`Math.random()` results and backend-call outcomes are explicit inputs,
React state is an explicit record threaded through step functions.
-/

namespace TriArb

/-- Status union of ArbitrageOpportunity:
  'detected' | 'executing' | 'completed' | 'failed'. -/
inductive OppStatus where
  | detected
  | executing
  | completed
  | failed
deriving DecidableEq, Repr

/-- Side union of TradeStep in backend.ts: 'buy' | 'sell'. -/
inductive Side where
  | buy
  | sell
deriving DecidableEq, Repr

/-- TradeStep interface from src/src/api/backend.ts. -/
structure TradeStep where
  symbol : String
  side : Side
  quantity : ℚ
  price : ℚ
  expectedAmount : ℚ
deriving DecidableEq, Repr

/-- ArbitrageOpportunity interface from src/src/api/backend.ts
(used by the backend-connected dashboard version). -/
structure Opportunity where
  id : String
  exchange : String
  trianglePath : String
  profitPercentage : ℚ
  profitAmount : ℚ
  volume : ℚ
  status : OppStatus
  timestamp : String
  steps : List TradeStep
  tradeable : Option Bool := none
  real_balance_based : Option Bool := none
  balanceRequired : Option ℚ := none
  ui_display_only : Option Bool := none
  real_market_data : Option Bool := none
deriving DecidableEq, Repr

/-- AutoTradeLog interface from the backend-connected dashboard
(status is only ever 'completed' or 'failed'). -/
structure AutoTradeLog where
  id : String
  timestamp : String
  exchange : String
  profitPercentage : ℚ
  profitAmount : ℚ
  volume : ℚ
  status : OppStatus
deriving DecidableEq, Repr

/-- ExchangeConfig interface from ArbitrageBotDashboard.tsx. -/
structure ExchangeConfig where
  id : String
  name : String
  enabled : Bool
  connected : Bool
  feeToken : String
  zeroFeePairs : ℕ
deriving DecidableEq, Repr

/-- The autoStats record of the backend-connected dashboard. -/
structure AutoStats where
  autoTradesExecuted : ℕ
  autoProfit : ℚ
  autoSuccessRate : ℚ
deriving DecidableEq, Repr

/-- BotStats interface from src/src/api/backend.ts (also the stats record of
the simulated dashboard version). -/
structure BotStats where
  opportunitiesFound : ℕ
  tradesExecuted : ℕ
  totalProfit : ℚ
  successRate : ℚ
  activeExchanges : ℕ
deriving DecidableEq, Repr

/-- React state of the backend-connected dashboard version
(ArbitrageBotDashboard.tsx, second concatenated copy): the useState cells
relevant to bot control, the circuit breaker and the opportunity list. -/
structure DashState where
  isRunning : Bool
  autoTrading : Bool
  paperTrading : Bool
  minProfit : ℚ
  maxTradeAmount : ℚ
  maxConsecutiveFails : ℕ
  consecutiveFails : ℕ
  pausedAutoTrading : Bool
  opportunities : List Opportunity
  autoTradeLogs : List AutoTradeLog
  autoStats : AutoStats
  selectedOpportunity : Option String
  exchanges : List ExchangeConfig
deriving DecidableEq, Repr

/-- The setAutoStats updater inside the opportunity_executed handler:
trades, profit, successCount and successRate exactly as computed there. -/
def updateAutoStats (prev : AutoStats) (executed : Opportunity) : AutoStats :=
  let trades := prev.autoTradesExecuted + 1
  let profit := prev.autoProfit +
    (if executed.status = OppStatus.completed then executed.profitAmount else 0)
  let successCount := (prev.autoTradesExecuted : ℚ) * (prev.autoSuccessRate / 100) +
    (if executed.status = OppStatus.completed then 1 else 0)
  let successRate := (successCount / (trades : ℚ)) * 100
  { autoTradesExecuted := trades, autoProfit := profit, autoSuccessRate := successRate }

/-- The WebSocket opportunity_executed handler of the backend-connected
dashboard: when the executed opportunity's status is completed or failed it
prepends an AutoTradeLog (bounded by slice(0,49)), updates autoStats, and
updates the circuit breaker: on failure it increments consecutiveFails and,
when the incremented counter reaches maxConsecutiveFails, sets
pausedAutoTrading and turns autoTrading off; on success it resets
consecutiveFails to zero. -/
def wsOpportunityExecuted (s : DashState) (executed : Opportunity) : DashState :=
  if executed.status = OppStatus.completed ∨ executed.status = OppStatus.failed then
    let log : AutoTradeLog :=
      { id := executed.id
      , timestamp := executed.timestamp
      , exchange := executed.exchange
      , profitPercentage := executed.profitPercentage
      , profitAmount := executed.profitAmount
      , volume := executed.volume
      , status := executed.status }
    let s1 := { s with autoTradeLogs := log :: s.autoTradeLogs.take 49
                     , autoStats := updateAutoStats s.autoStats executed }
    if executed.status = OppStatus.failed then
      let newFails := s1.consecutiveFails + 1
      if s1.maxConsecutiveFails ≤ newFails then
        { s1 with consecutiveFails := newFails
                , pausedAutoTrading := true
                , autoTrading := false }
      else
        { s1 with consecutiveFails := newFails }
    else
      { s1 with consecutiveFails := 0 }
  else
    s

/-- The resumeAutoTrading handler: clears the paused flag, resets the
consecutive-failure counter and re-enables auto trading, in one update. -/
def resumeAutoTrading (s : DashState) : DashState :=
  { s with pausedAutoTrading := false
         , consecutiveFails := 0
         , autoTrading := true }

/-- The executeOpportunity handler of the backend-connected dashboard:
calls the backend (its outcome is the backendOk input) and then maps the
opportunity list, setting the matching id's status to completed on success
and failed on error. -/
def executeOpportunity (s : DashState) (oppId : String) (backendOk : Bool) : DashState :=
  { s with opportunities := s.opportunities.map (fun opp =>
      if opp.id = oppId then
        { opp with status := if backendOk then OppStatus.completed else OppStatus.failed }
      else opp) }

/-- The render condition of the Execute button in the opportunities table:
the button is shown exactly when the row's status is detected. -/
def executeButtonShown (o : Opportunity) : Bool :=
  o.status = OppStatus.detected

/-- The toggleBot handler of the backend-connected dashboard: when not
running it calls startBot and, only on success, marks enabled exchanges
connected and sets isRunning; when running it calls stopBot and, only on
success, disconnects exchanges, clears isRunning and autoTrading. -/
def toggleBot (s : DashState) (backendOk : Bool) : DashState :=
  if s.isRunning = false then
    if backendOk then
      let connect := fun (ex : ExchangeConfig) =>
        if ex.enabled then { ex with connected := true } else ex
      { s with exchanges := s.exchanges.map connect, isRunning := true }
    else s
  else
    if backendOk then
      { s with exchanges := s.exchanges.map (fun ex => { ex with connected := false })
             , isRunning := false
             , autoTrading := false }
    else s

/-- Every state-mutating operation of the backend-connected dashboard:
the two WebSocket message kinds, the bot toggle, the explicit resume,
manual execution, the checkbox/settings setters, the exchange toggle and
row selection. -/
inductive DashOp where
  | wsOpportunitiesUpdate (opps : List Opportunity)
  | wsExecuted (executed : Opportunity)
  | toggleBot (backendOk : Bool)
  | resume
  | execute (oppId : String) (backendOk : Bool)
  | setAutoTrading (b : Bool)
  | setPaperTrading (b : Bool)
  | setMinProfit (v : ℚ)
  | setMaxTradeAmount (v : ℚ)
  | setMaxConsecutiveFails (v : ℕ)
  | toggleExchange (exId : String)
  | selectOpportunity (oppId : String)
deriving DecidableEq, Repr

/-- One step of the backend-connected dashboard under an operation. -/
def dashStep (s : DashState) (op : DashOp) : DashState :=
  match op with
  | DashOp.wsOpportunitiesUpdate opps => { s with opportunities := opps }
  | DashOp.wsExecuted executed => wsOpportunityExecuted s executed
  | DashOp.toggleBot backendOk => toggleBot s backendOk
  | DashOp.resume => resumeAutoTrading s
  | DashOp.execute oppId backendOk => executeOpportunity s oppId backendOk
  | DashOp.setAutoTrading b => { s with autoTrading := b }
  | DashOp.setPaperTrading b => { s with paperTrading := b }
  | DashOp.setMinProfit v => { s with minProfit := v }
  | DashOp.setMaxTradeAmount v => { s with maxTradeAmount := v }
  | DashOp.setMaxConsecutiveFails v => { s with maxConsecutiveFails := v }
  | DashOp.toggleExchange exId => { s with exchanges := s.exchanges.map (fun ex =>
      if ex.id = exId then { ex with enabled := !ex.enabled } else ex) }
  | DashOp.selectOpportunity oppId => { s with selectedOpportunity := some oppId }

/-- ArbitrageOpportunity interface local to the simulated dashboard version
(first concatenated copy of ArbitrageBotDashboard.tsx); its timestamp is a
Date, embedded as a ℕ epoch value. -/
structure SimOpportunity where
  id : String
  exchange : String
  trianglePath : String
  profitPercentage : ℚ
  profitAmount : ℚ
  volume : ℚ
  status : OppStatus
  timestamp : ℕ
deriving DecidableEq, Repr

/-- React state of the simulated dashboard version: running flag,
opportunity list, stats record and exchange configuration. -/
structure SimState where
  isRunning : Bool
  opportunities : List SimOpportunity
  stats : BotStats
  exchanges : List ExchangeConfig
deriving DecidableEq, Repr

/-- The newOpportunity object built on each interval tick of the simulated
dashboard: the three Math.random() draws are the inputs r1 r2 r3 and
Date.now() is the input now. profitPercentage is r1 * 0.5 + 0.05. -/
def genOpportunity (now : ℕ) (exs : List ExchangeConfig) (r1 r2 r3 : ℚ) : SimOpportunity :=
  { id := "opp_" ++ toString now
  , exchange := (((exs.find? (fun e => e.enabled)).map (fun e => e.name))).getD "Binance"
  , trianglePath := "USDT → BTC → ETH → USDT"
  , profitPercentage := r1 * (1/2) + 1/20
  , profitAmount := r2 * 10 + 1
  , volume := r3 * 1000 + 100
  , status := OppStatus.detected
  , timestamp := now }

/-- One interval tick of the simulated dashboard's data-update effect: when
running, prepends the generated opportunity to the first 49 existing ones
(slice(0,49)) and bumps opportunitiesFound / activeExchanges; the effect is
not installed while the bot is stopped. -/
def simTick (s : SimState) (now : ℕ) (r1 r2 r3 : ℚ) : SimState :=
  if s.isRunning then
    let newOpportunity := genOpportunity now s.exchanges r1 r2 r3
    { s with opportunities := newOpportunity :: s.opportunities.take 49
           , stats := { s.stats with
                opportunitiesFound := s.stats.opportunitiesFound + 1
              , activeExchanges := (s.exchanges.filter (fun e => e.enabled)).length } }
  else s

/-- First half of the simulated dashboard's executeOpportunity: marks the
matching opportunity executing. -/
def simExecStart (s : SimState) (oppId : String) : SimState :=
  { s with opportunities := s.opportunities.map (fun opp =>
      if opp.id = oppId then { opp with status := OppStatus.executing } else opp) }

/-- The setTimeout completion callback of the simulated dashboard's
executeOpportunity: the Math.random() > 0.1 draw is the success input. It
sets the matching opportunity completed or failed, and only on success
updates stats with tradesExecuted + 1, totalProfit plus the opportunity's
profitAmount, and successRate computed as
((tradesExecuted + 1) / (tradesExecuted + 1)) * 100. -/
def simExecComplete (s : SimState) (oppId : String) (success : Bool) : SimState :=
  let s1 := { s with opportunities := s.opportunities.map (fun opp =>
      if opp.id = oppId then
        { opp with status := if success then OppStatus.completed else OppStatus.failed }
      else opp) }
  if success then
    { s1 with stats := { s1.stats with
        tradesExecuted := s.stats.tradesExecuted + 1
      , totalProfit := s.stats.totalProfit +
          (((s.opportunities.find? (fun o => o.id = oppId)).map
              (fun o => o.profitAmount)).getD 0)
      , successRate := (((s.stats.tradesExecuted : ℚ) + 1) /
          ((s.stats.tradesExecuted : ℚ) + 1)) * 100 } }
  else s1

/-- The toggleBot handler of the simulated dashboard: flips isRunning and
sets/clears the connected flags of the enabled exchanges. -/
def simToggleBot (s : SimState) : SimState :=
  if s.isRunning = false then
    let connect := fun (ex : ExchangeConfig) =>
      if ex.enabled then { ex with connected := true } else ex
    { s with isRunning := true, exchanges := s.exchanges.map connect }
  else
    { s with isRunning := false
           , exchanges := s.exchanges.map (fun ex => { ex with connected := false }) }

/-- The state-mutating events of the simulated dashboard relevant to the
opportunity list and statistics. -/
inductive SimEvent where
  | tick (now : ℕ) (r1 r2 r3 : ℚ)
  | toggleBot
  | execStart (oppId : String)
  | execComplete (oppId : String) (success : Bool)
deriving DecidableEq, Repr

/-- Recognizes a successful execution-completion event. -/
def isSuccessEvent (e : SimEvent) : Bool :=
  match e with
  | SimEvent.execComplete _ true => true
  | _ => false

/-- One step of the simulated dashboard under an event. -/
def simStep (s : SimState) (e : SimEvent) : SimState :=
  match e with
  | SimEvent.tick now r1 r2 r3 => simTick s now r1 r2 r3
  | SimEvent.toggleBot => simToggleBot s
  | SimEvent.execStart oppId => simExecStart s oppId
  | SimEvent.execComplete oppId success => simExecComplete s oppId success

/-- Runs the simulated dashboard over a list of events. -/
def simRun (s : SimState) (es : List SimEvent) : SimState :=
  es.foldl simStep s

/-- The initial exchanges array of the simulated dashboard version. -/
def initExchanges : List ExchangeConfig :=
  [ { id := "binance", name := "Binance", enabled := true, connected := false, feeToken := "BNB", zeroFeePairs := 0 }
  , { id := "bybit", name := "Bybit", enabled := false, connected := false, feeToken := "BIT", zeroFeePairs := 0 }
  , { id := "kucoin", name := "KuCoin", enabled := false, connected := false, feeToken := "KCS", zeroFeePairs := 2 }
  , { id := "coinbase", name := "Coinbase Pro", enabled := false, connected := false, feeToken := "", zeroFeePairs := 0 }
  , { id := "kraken", name := "Kraken", enabled := false, connected := false, feeToken := "", zeroFeePairs := 0 }
  , { id := "gate", name := "Gate.io", enabled := false, connected := false, feeToken := "GT", zeroFeePairs := 0 }
  , { id := "coinex", name := "CoinEx", enabled := false, connected := false, feeToken := "CET", zeroFeePairs := 0 }
  , { id := "htx", name := "HTX", enabled := false, connected := false, feeToken := "HT", zeroFeePairs := 0 }
  , { id := "mexc", name := "MEXC", enabled := false, connected := false, feeToken := "MX", zeroFeePairs := 0 }
  , { id := "poloniex", name := "Poloniex", enabled := false, connected := false, feeToken := "", zeroFeePairs := 0 }
  , { id := "probit", name := "ProBit", enabled := false, connected := false, feeToken := "PROB", zeroFeePairs := 0 }
  , { id := "hitbtc", name := "HitBTC", enabled := false, connected := false, feeToken := "", zeroFeePairs := 0 } ]

/-- The initial useState values of the simulated dashboard. -/
def initSimState : SimState :=
  { isRunning := false
  , opportunities := []
  , stats := { opportunitiesFound := 0, tradesExecuted := 0, totalProfit := 0
             , successRate := 0, activeExchanges := 0 }
  , exchanges := initExchanges }

/-- Status union of DetailedTradeLog in backend.ts:
  'success' | 'failed' | 'partial'. -/
inductive TradeLogStatus where
  | success
  | failed
  | partialTrade
deriving DecidableEq, Repr

/-- TradeStepDetail interface from src/src/api/backend.ts. -/
structure TradeStepDetail where
  step_number : ℕ
  symbol : String
  direction : Side
  expected_price : ℚ
  actual_price : ℚ
  expected_quantity : ℚ
  actual_quantity : ℚ
  expected_amount_out : ℚ
  actual_amount_out : ℚ
  fees_paid : ℚ
  execution_time_ms : ℚ
  slippage_percentage : ℚ
deriving DecidableEq, Repr

/-- DetailedTradeLog interface from src/src/api/backend.ts. -/
structure DetailedTradeLog where
  trade_id : String
  timestamp : String
  exchange : String
  triangle_path : List String
  status : TradeLogStatus
  status_emoji : String
  initial_amount : ℚ
  final_amount : ℚ
  base_currency : String
  expected_profit_amount : ℚ
  expected_profit_percentage : ℚ
  actual_profit_amount : ℚ
  actual_profit_percentage : ℚ
  total_fees_paid : ℚ
  total_slippage : ℚ
  net_pnl : ℚ
  total_duration_ms : ℚ
  steps : List TradeStepDetail
  error_message : Option String := none
  failed_at_step : Option ℕ := none
deriving DecidableEq, Repr

/-- TradeStatistics interface from src/src/api/backend.ts. -/
structure TradeStatistics where
  total_trades : ℕ
  successful_trades : ℕ
  failed_trades : ℕ
  success_rate : ℚ
  total_profit : ℚ
  total_fees : ℚ
  average_duration_ms : ℚ
  best_trade : Option DetailedTradeLog
  worst_trade : Option DetailedTradeLog
deriving DecidableEq, Repr

/-- Outcome of one fetch call as observed by the BackendAPI methods: a
response whose ok flag is set (with a parsed JSON body), a response whose ok
flag is clear, or a thrown network error caught by the catch block. -/
inductive FetchOutcome (α : Type) where
  | ok (body : α)
  | notOk
  | netError
deriving DecidableEq, Repr

/-- BackendAPI.startBot: returns response.ok; the catch block returns
false. -/
def startBotResult (r : FetchOutcome Unit) : Bool :=
  match r with
  | FetchOutcome.ok _ => true
  | FetchOutcome.notOk => false
  | FetchOutcome.netError => false

/-- BackendAPI.stopBot: returns response.ok; the catch block returns
false. -/
def stopBotResult (r : FetchOutcome Unit) : Bool :=
  match r with
  | FetchOutcome.ok _ => true
  | FetchOutcome.notOk => false
  | FetchOutcome.netError => false

/-- BackendAPI.executeOpportunity: returns response.ok; the catch block
returns false. -/
def executeOpportunityResult (r : FetchOutcome Unit) : Bool :=
  match r with
  | FetchOutcome.ok _ => true
  | FetchOutcome.notOk => false
  | FetchOutcome.netError => false

/-- BackendAPI.toggleAutoTrading: returns response.ok; the catch block
returns false. -/
def toggleAutoTradingResult (r : FetchOutcome Unit) : Bool :=
  match r with
  | FetchOutcome.ok _ => true
  | FetchOutcome.notOk => false
  | FetchOutcome.netError => false

/-- BackendAPI.getOpportunities: returns the parsed body on an ok response
and the empty list on a non-ok response or a caught error. -/
def getOpportunitiesResult (r : FetchOutcome (List Opportunity)) : List Opportunity :=
  match r with
  | FetchOutcome.ok body => body
  | FetchOutcome.notOk => []
  | FetchOutcome.netError => []

/-- BackendAPI.getTrades: returns the parsed body on an ok response and the
empty list on a non-ok response or a caught error. -/
def getTradesResult (r : FetchOutcome (List DetailedTradeLog)) : List DetailedTradeLog :=
  match r with
  | FetchOutcome.ok body => body
  | FetchOutcome.notOk => []
  | FetchOutcome.netError => []

/-- BackendAPI.getTradeStats: returns the parsed body on an ok response and
null on a non-ok response or a caught error. -/
def getTradeStatsResult (r : FetchOutcome TradeStatistics) : Option TradeStatistics :=
  match r with
  | FetchOutcome.ok body => some body
  | FetchOutcome.notOk => none
  | FetchOutcome.netError => none

/-- BackendAPI.getStats: returns the parsed body on an ok response and null
on a non-ok response or a caught error. -/
def getStatsResult (r : FetchOutcome BotStats) : Option BotStats :=
  match r with
  | FetchOutcome.ok body => some body
  | FetchOutcome.notOk => none
  | FetchOutcome.netError => none

/-- BotConfig interface from src/src/api/backend.ts. -/
structure BotConfig where
  minProfitPercentage : ℚ
  maxTradeAmount : ℚ
  autoTradingMode : Bool
  paperTrading : Bool
  selectedExchanges : List String
deriving DecidableEq, Repr

/-- State of the backend bot server visible to the Start operation. -/
structure ServerState where
  running : Bool
deriving DecidableEq, Repr

/-- Modelled from the spec: the Python backend handler behind
POST /api/bot/start is not part of src/ (src/ holds only its caller
BackendAPI.startBot); per the control-surface contract, Start accepts the
configuration and fails if already running or if selectedExchanges is
empty. The Bool component reports acceptance; a failed Start leaves the
server state unchanged. -/
def serverStartBot (config : BotConfig) (srv : ServerState) : Bool × ServerState :=
  if srv.running then (false, srv)
  else if config.selectedExchanges = [] then (false, srv)
  else (true, { running := true })

/-- A cycle candidate as produced by the detection computation. -/
structure CycleCandidate where
  trianglePath : String
  finalAmount : ℚ
  profitPercentage : ℚ
  status : OppStatus
deriving DecidableEq, Repr

/-- Modelled from the spec: the Python CycleDetector is not part of src/.
Compounded conversion for the cycle USDT → BTC → ETH → USDT: 1 USDT buys
1/pBTCUSDT BTC at the ask, that BTC buys its amount divided by pETHBTC in
ETH, that ETH sells for its amount times pETHUSDT in USDT, each leg net of
the fee rate. -/
def cycleFinalAmount (pBTCUSDT pETHUSDT pETHBTC fee : ℚ) : ℚ :=
  let btcAmount := (1 / pBTCUSDT) * (1 - fee)
  let ethAmount := (btcAmount / pETHBTC) * (1 - fee)
  (ethAmount * pETHUSDT) * (1 - fee)

/-- Modelled from the spec: the Python CycleDetector is not part of src/.
A candidate ArbitrageOpportunity is produced, in status detected, exactly
for a positive-yield triple; zero or negative yield is discarded. -/
def detectCycle (pBTCUSDT pETHUSDT pETHBTC fee : ℚ) : Option CycleCandidate :=
  let finalAmount := cycleFinalAmount pBTCUSDT pETHUSDT pETHBTC fee
  if 1 < finalAmount then
    some { trianglePath := "USDT → BTC → ETH → USDT"
         , finalAmount := finalAmount
         , profitPercentage := (finalAmount - 1) * 100
         , status := OppStatus.detected }
  else none

/-! Sample values used by witnesses and counterexamples. -/

/-- A sample opportunity in status detected. -/
def oppDetected : Opportunity :=
  { id := "opp1", exchange := "Binance", trianglePath := "USDT → BTC → ETH → USDT"
  , profitPercentage := 1/4, profitAmount := 2, volume := 500
  , status := OppStatus.detected, timestamp := "t0", steps := [] }

/-- A sample opportunity in status completed. -/
def oppCompleted : Opportunity :=
  { oppDetected with id := "opp2", status := OppStatus.completed }

/-- A sample opportunity in status failed. -/
def oppFailed : Opportunity :=
  { oppDetected with id := "opp3", status := OppStatus.failed }

/-- A sample backend-connected dashboard state: not paused, two failures
already on the streak, threshold three. -/
def sampleDash : DashState :=
  { isRunning := true, autoTrading := true, paperTrading := true
  , minProfit := 1/10, maxTradeAmount := 100
  , maxConsecutiveFails := 3, consecutiveFails := 2
  , pausedAutoTrading := false
  , opportunities := [oppDetected, oppCompleted]
  , autoTradeLogs := []
  , autoStats := { autoTradesExecuted := 0, autoProfit := 0, autoSuccessRate := 0 }
  , selectedOpportunity := none
  , exchanges := initExchanges }

/-- The sample dashboard state with the circuit breaker paused. -/
def sampleDashPaused : DashState :=
  { sampleDash with pausedAutoTrading := true, autoTrading := false }

/-- C1: a trade-completion event processed while the breaker is not paused
resets the consecutive-failure counter to zero on success and increments it
by one on failure, and the paused flag becomes true in that step exactly
when the incremented counter reaches maxConsecutiveFails. -/
theorem circuitBreaker_counter_and_pause (s : DashState) (executed : Opportunity)
    (hnp : s.pausedAutoTrading = false) :
    (executed.status = OppStatus.completed →
      (wsOpportunityExecuted s executed).consecutiveFails = 0 ∧
      (wsOpportunityExecuted s executed).pausedAutoTrading = false) ∧
    (executed.status = OppStatus.failed →
      (wsOpportunityExecuted s executed).consecutiveFails = s.consecutiveFails + 1 ∧
      ((wsOpportunityExecuted s executed).pausedAutoTrading = true ↔
        s.maxConsecutiveFails ≤ s.consecutiveFails + 1)) := by
  constructor
  · intro h
    simp [wsOpportunityExecuted, h, hnp]
  · intro h
    by_cases hge : s.maxConsecutiveFails ≤ s.consecutiveFails + 1
    · simp [wsOpportunityExecuted, h, hge]
    · simp [wsOpportunityExecuted, h, hge, hnp]

/-- C1 witness: a failure event at two prior failures with threshold three
increments the counter to three and engages the pause. -/
theorem circuitBreaker_counter_and_pause_witness :
    (wsOpportunityExecuted sampleDash oppFailed).consecutiveFails =
      sampleDash.consecutiveFails + 1 ∧
    ((wsOpportunityExecuted sampleDash oppFailed).pausedAutoTrading = true ↔
      sampleDash.maxConsecutiveFails ≤ sampleDash.consecutiveFails + 1) :=
  (circuitBreaker_counter_and_pause sampleDash oppFailed rfl).2 rfl

/-- The opportunity_executed handler never clears an already-set paused
flag. -/
lemma wsOpportunityExecuted_keeps_paused (s : DashState) (e : Opportunity)
    (hp : s.pausedAutoTrading = true) :
    (wsOpportunityExecuted s e).pausedAutoTrading = true := by
  unfold wsOpportunityExecuted
  split_ifs <;> try simp_all
  split <;> simp_all

/-- The toggleBot handler never touches the paused flag. -/
lemma toggleBot_keeps_paused (s : DashState) (backendOk : Bool) :
    (toggleBot s backendOk).pausedAutoTrading = s.pausedAutoTrading := by
  unfold toggleBot
  split_ifs <;> rfl

/-- C2: once the paused flag is set, every dashboard operation other than
the explicit Resume leaves it set — in particular both successful and
failed trade-completion events — and the Resume step atomically resets the
consecutive-failure counter to zero and clears the paused flag. -/
theorem paused_cleared_only_by_resume (s : DashState) (op : DashOp)
    (hp : s.pausedAutoTrading = true) :
    (op ≠ DashOp.resume → (dashStep s op).pausedAutoTrading = true) ∧
    ((dashStep s DashOp.resume).consecutiveFails = 0 ∧
      (dashStep s DashOp.resume).pausedAutoTrading = false) := by
  refine ⟨?_, by simp [dashStep, resumeAutoTrading], by simp [dashStep, resumeAutoTrading]⟩
  intro hne
  cases op with
  | wsOpportunitiesUpdate opps => exact hp
  | wsExecuted executed => exact wsOpportunityExecuted_keeps_paused s executed hp
  | toggleBot backendOk => exact (toggleBot_keeps_paused s backendOk).trans hp
  | resume => exact absurd rfl hne
  | execute oppId backendOk => exact hp
  | setAutoTrading b => exact hp
  | setPaperTrading b => exact hp
  | setMinProfit v => exact hp
  | setMaxTradeAmount v => exact hp
  | setMaxConsecutiveFails v => exact hp
  | toggleExchange exId => exact hp
  | selectOpportunity oppId => exact hp

/-- C2 witness: from a paused state a successful trade-completion event
leaves the flag set, and Resume clears counter and flag. -/
theorem paused_cleared_only_by_resume_witness :
    (dashStep sampleDashPaused (DashOp.wsExecuted oppCompleted)).pausedAutoTrading = true ∧
    (dashStep sampleDashPaused DashOp.resume).consecutiveFails = 0 ∧
    (dashStep sampleDashPaused DashOp.resume).pausedAutoTrading = false :=
  ⟨(paused_cleared_only_by_resume sampleDashPaused
      (DashOp.wsExecuted oppCompleted) rfl).1 (by decide)
  , (paused_cleared_only_by_resume sampleDashPaused DashOp.resume rfl).2⟩

/-- C3: while the breaker is paused the manual Execute path still goes
through: the Execute button shows exactly for status detected (never
consulting the paused flag), the execute step performs its status update on
the matching opportunity, and it acts on a paused state exactly as on the
same state unpaused; whereas in the very step in which the pause engages,
autoTrading is switched off. -/
theorem manual_execute_ignores_pause (s t : DashState) (oppId : String)
    (backendOk : Bool) (o executed : Opportunity)
    (_hp : s.pausedAutoTrading = true)
    (_ht : t.pausedAutoTrading = false)
    (hfail : executed.status = OppStatus.failed)
    (hth : t.maxConsecutiveFails ≤ t.consecutiveFails + 1) :
    (executeButtonShown o = true ↔ o.status = OppStatus.detected) ∧
    ((dashStep s (DashOp.execute oppId backendOk)).opportunities =
      s.opportunities.map (fun opp =>
        if opp.id = oppId then
          { opp with status := if backendOk then OppStatus.completed else OppStatus.failed }
        else opp)) ∧
    ((dashStep s (DashOp.execute oppId backendOk)).opportunities =
      (dashStep { s with pausedAutoTrading := false }
        (DashOp.execute oppId backendOk)).opportunities) ∧
    ((wsOpportunityExecuted t executed).pausedAutoTrading = true ∧
      (wsOpportunityExecuted t executed).autoTrading = false) := by
  refine ⟨by simp [executeButtonShown], rfl, rfl, ?_⟩
  simp [wsOpportunityExecuted, hfail, hth]

/-- C3 witness: on the paused sample state, the Execute button condition is
status-only, a manual execute on a detected row is processed as when
unpaused, and the pause-engaging event also clears autoTrading. -/
theorem manual_execute_ignores_pause_witness :
    (executeButtonShown oppDetected = true ↔ oppDetected.status = OppStatus.detected) ∧
    ((dashStep sampleDashPaused (DashOp.execute "opp1" true)).opportunities =
      (dashStep { sampleDashPaused with pausedAutoTrading := false }
        (DashOp.execute "opp1" true)).opportunities) ∧
    (wsOpportunityExecuted sampleDash oppFailed).pausedAutoTrading = true ∧
    (wsOpportunityExecuted sampleDash oppFailed).autoTrading = false := by
  have h := manual_execute_ignores_pause sampleDashPaused sampleDash "opp1" true
    oppDetected oppFailed rfl rfl rfl (by decide)
  exact ⟨h.1, h.2.2.1, h.2.2.2⟩

/-- C4: every opportunity the simulated dashboard surfaces has strictly
positive profit percentage: the generated entry's percentage
r1 * 0.5 + 0.05 is positive for any Math.random() draw, and a tick keeps
the whole list strictly positive; zero- or negative-yield entries are never
added. -/
theorem surfaced_opportunities_positive (s : SimState) (now : ℕ) (r1 r2 r3 : ℚ)
    (hr : 0 ≤ r1)
    (hall : ∀ o ∈ s.opportunities, 0 < o.profitPercentage) :
    0 < (genOpportunity now s.exchanges r1 r2 r3).profitPercentage ∧
    ∀ o ∈ (simTick s now r1 r2 r3).opportunities, 0 < o.profitPercentage := by
  have hpos : 0 < r1 * (1/2) + 1/20 := by
    have hh : 0 ≤ r1 * (1/2) := mul_nonneg hr (by norm_num)
    linarith
  refine ⟨by simpa [genOpportunity] using hpos, ?_⟩
  cases hrun : s.isRunning with
  | false =>
      intro o ho
      rw [simTick, hrun] at ho
      exact hall o (by simpa using ho)
  | true =>
      intro o ho
      rw [simTick, hrun] at ho
      simp only [if_true] at ho
      rcases List.mem_cons.mp ho with h | h
      · subst h
        simpa [genOpportunity] using hpos
      · exact hall o (List.take_subset _ _ h)

/-- C4 witness: a concrete draw yields a strictly positive surfaced profit
percentage from the empty initial state. -/
theorem surfaced_opportunities_positive_witness :
    0 < (genOpportunity 0 initSimState.exchanges (1/2) 0 0).profitPercentage :=
  (surfaced_opportunities_positive initSimState 0 (1/2) 0 0 (by norm_num)
    (by simp [initSimState])).1

/-- C5: a tick of the simulated dashboard leaves at most 50 live
opportunities and puts the newly detected one first, and a trade-completion
event leaves at most 50 auto-trade log entries: both updates prepend and
truncate with slice(0,49). -/
theorem opportunity_list_bounded (s : SimState) (now : ℕ) (r1 r2 r3 : ℚ)
    (t : DashState) (executed : Opportunity)
    (hrun : s.isRunning = true)
    (hdone : executed.status = OppStatus.completed ∨ executed.status = OppStatus.failed) :
    (simTick s now r1 r2 r3).opportunities.length ≤ 50 ∧
    (simTick s now r1 r2 r3).opportunities.head? =
      some (genOpportunity now s.exchanges r1 r2 r3) ∧
    (wsOpportunityExecuted t executed).autoTradeLogs.length ≤ 50 := by
  refine ⟨?_, ?_, ?_⟩
  · rw [simTick, hrun]
    simp only [if_true, List.length_cons, List.length_take]
    omega
  · rw [simTick, hrun]
    simp
  · rw [wsOpportunityExecuted, if_pos hdone]
    dsimp only
    split
    · split <;> simp only [List.length_cons, List.length_take] <;> omega
    · simp only [List.length_cons, List.length_take]
      omega

/-- C5 witness: the concrete tick and failure-completion event respect the
bound, with the fresh opportunity first. -/
theorem opportunity_list_bounded_witness :
    (simTick { initSimState with isRunning := true } 7 0 0 0).opportunities.length ≤ 50 ∧
    (simTick { initSimState with isRunning := true } 7 0 0 0).opportunities.head? =
      some (genOpportunity 7 initSimState.exchanges 0 0 0) ∧
    (wsOpportunityExecuted sampleDash oppFailed).autoTradeLogs.length ≤ 50 :=
  opportunity_list_bounded { initSimState with isRunning := true } 7 0 0 0
    sampleDash oppFailed rfl (Or.inr rfl)

/-- C6 counterexample: an Execute request on the id of an opportunity that
is already completed (no longer detected) does not leave the opportunity
list unchanged: when the backend rejects the request, the dashboard
overwrites that opportunity's status to failed. -/
theorem execute_nondetected_counterexample :
    (dashStep sampleDash (DashOp.execute "opp2" false)).opportunities ≠
      sampleDash.opportunities ∧
    ((dashStep sampleDash (DashOp.execute "opp2" false)).opportunities.map
        (fun o => o.status)) = [OppStatus.detected, OppStatus.failed] ∧
    (sampleDash.opportunities.map (fun o => o.status)) =
      [OppStatus.detected, OppStatus.completed] := by
  have h2 : ((dashStep sampleDash (DashOp.execute "opp2" false)).opportunities.map
      (fun o => o.status)) = [OppStatus.detected, OppStatus.failed] := by decide
  have h3 : (sampleDash.opportunities.map (fun o => o.status)) =
      [OppStatus.detected, OppStatus.completed] := by decide
  refine ⟨?_, h2, h3⟩
  intro heq
  rw [heq, h3] at h2
  exact absurd h2 (by decide)

/-- C6 amended: an Execute request on an id that matches no opportunity in
the list leaves the list unchanged; on an id that is present — whatever its
status — the dashboard unconditionally rewrites the matching entries'
status to completed when the backend accepts and failed when it rejects,
leaving all other entries untouched. -/
theorem execute_unknown_id_no_effect (s : DashState) (oppId : String) (backendOk : Bool) :
    ((∀ o ∈ s.opportunities, o.id ≠ oppId) →
      (dashStep s (DashOp.execute oppId backendOk)).opportunities = s.opportunities) ∧
    ((dashStep s (DashOp.execute oppId backendOk)).opportunities =
      s.opportunities.map (fun opp =>
        if opp.id = oppId then
          { opp with status := if backendOk then OppStatus.completed else OppStatus.failed }
        else opp)) := by
  refine ⟨?_, rfl⟩
  intro h
  show s.opportunities.map _ = s.opportunities
  have hfix : ∀ o ∈ s.opportunities,
      (if o.id = oppId then
        { o with status := if backendOk then OppStatus.completed else OppStatus.failed }
      else o) = o := by
    intro o ho
    simp [h o ho]
  calc s.opportunities.map _ = s.opportunities.map (fun o => o) :=
        List.map_congr_left hfix
    _ = s.opportunities := List.map_id' s.opportunities

/-- C6 witness: executing an id absent from the sample list leaves the
list unchanged. -/
theorem execute_unknown_id_no_effect_witness :
    (dashStep sampleDash (DashOp.execute "nope" true)).opportunities =
      sampleDash.opportunities :=
  (execute_unknown_id_no_effect sampleDash "nope" true).1 (by decide)

/-- A sample configuration selecting one exchange. -/
def sampleConfig : BotConfig :=
  { minProfitPercentage := 1/10, maxTradeAmount := 100
  , autoTradingMode := false, paperTrading := true
  , selectedExchanges := ["binance"] }

/-- C7: the modelled Start operation is rejected, with the server's running
state unchanged, whenever the bot is already running or the configuration
selects no exchange; and on the frontend a failed start call leaves
isRunning unchanged. -/
theorem start_rejected (config : BotConfig) (srv : ServerState) (s : DashState)
    (h : srv.running = true ∨ config.selectedExchanges = []) :
    (serverStartBot config srv).1 = false ∧
    (serverStartBot config srv).2 = srv ∧
    (dashStep s (DashOp.toggleBot false)).isRunning = s.isRunning := by
  refine ⟨?_, ?_, ?_⟩
  · unfold serverStartBot
    rcases h with h | h
    · simp [h]
    · split_ifs <;> simp_all
  · unfold serverStartBot
    rcases h with h | h
    · simp [h]
    · split_ifs <;> simp_all
  · show (toggleBot s false).isRunning = s.isRunning
    unfold toggleBot
    simp

/-- C7 witness: a start against a running server with a nonempty exchange
selection is rejected and changes nothing. -/
theorem start_rejected_witness :
    (serverStartBot sampleConfig { running := true }).1 = false ∧
    (serverStartBot sampleConfig { running := true }).2 = { running := true } ∧
    (dashStep sampleDash (DashOp.toggleBot false)).isRunning = sampleDash.isRunning :=
  start_rejected sampleConfig { running := true } sampleDash (Or.inl rfl)

/-- C8: with BTC/USDT = 50000, ETH/USDT = 3000, ETH/BTC = 0.0585 and zero
fees, the cycle USDT → BTC → ETH → USDT returns 40/39 ≈ 1.0256 USDT per
USDT, the detector surfaces it as a detected candidate, and its profit
percentage 100/39 is within 0.01 of 2.56. -/
theorem scenario_cycle_detected :
    cycleFinalAmount 50000 3000 (0.0585 : ℚ) 0 = 40/39 ∧
    |cycleFinalAmount 50000 3000 (0.0585 : ℚ) 0 - (1.0256 : ℚ)| < 1/10000 ∧
    detectCycle 50000 3000 (0.0585 : ℚ) 0 =
      some { trianglePath := "USDT → BTC → ETH → USDT"
           , finalAmount := 40/39
           , profitPercentage := 100/39
           , status := OppStatus.detected } ∧
    |(100/39 : ℚ) - (2.56 : ℚ)| < 1/100 := by
  have hfin : cycleFinalAmount 50000 3000 (0.0585 : ℚ) 0 = 40/39 := by
    unfold cycleFinalAmount
    norm_num
  refine ⟨hfin, ?_, ?_, ?_⟩
  · rw [hfin]
    rw [abs_sub_lt_iff]
    constructor <;> norm_num
  · unfold detectCycle
    rw [hfin]
    norm_num
  · rw [abs_sub_lt_iff]
    constructor <;> norm_num

/-- C9: every BackendAPI method is a total function of the transport
outcome, and on either error shape — a response with the ok flag clear or
a thrown network error caught by the catch block — the control methods
return false, the list queries return the empty list (indistinguishable
from an ok response with an empty body) and the statistics queries return
null. -/
theorem backend_api_error_totality :
    startBotResult FetchOutcome.notOk = false ∧
    startBotResult FetchOutcome.netError = false ∧
    stopBotResult FetchOutcome.notOk = false ∧
    stopBotResult FetchOutcome.netError = false ∧
    executeOpportunityResult FetchOutcome.notOk = false ∧
    executeOpportunityResult FetchOutcome.netError = false ∧
    toggleAutoTradingResult FetchOutcome.notOk = false ∧
    toggleAutoTradingResult FetchOutcome.netError = false ∧
    getOpportunitiesResult FetchOutcome.notOk = [] ∧
    getOpportunitiesResult FetchOutcome.netError = [] ∧
    getTradesResult FetchOutcome.notOk = [] ∧
    getTradesResult FetchOutcome.netError = [] ∧
    getTradeStatsResult FetchOutcome.notOk = none ∧
    getTradeStatsResult FetchOutcome.netError = none ∧
    getStatsResult FetchOutcome.notOk = none ∧
    getStatsResult FetchOutcome.netError = none ∧
    getOpportunitiesResult FetchOutcome.netError =
      getOpportunitiesResult (FetchOutcome.ok []) ∧
    getTradesResult FetchOutcome.netError = getTradesResult (FetchOutcome.ok []) :=
  ⟨rfl, rfl, rfl, rfl, rfl, rfl, rfl, rfl, rfl, rfl, rfl, rfl, rfl, rfl, rfl, rfl,
    rfl, rfl⟩

/-- A step of the simulated dashboard that is not a successful execution
completion leaves successRate untouched: failed completions skip the stats
update entirely and ticks only change other stats fields. -/
lemma simStep_keeps_successRate (s : SimState) (e : SimEvent)
    (h : isSuccessEvent e = false) :
    (simStep s e).stats.successRate = s.stats.successRate := by
  cases e with
  | tick now r1 r2 r3 =>
      show (simTick s now r1 r2 r3).stats.successRate = _
      unfold simTick
      split <;> rfl
  | toggleBot =>
      show (simToggleBot s).stats.successRate = _
      unfold simToggleBot
      split <;> rfl
  | execStart oppId => rfl
  | execComplete oppId success =>
      cases success with
      | false => rfl
      | true => simp [isSuccessEvent] at h

/-- A run with no successful completions leaves successRate untouched. -/
lemma simRun_keeps_successRate (es : List SimEvent) (s : SimState)
    (h : es.any isSuccessEvent = false) :
    (simRun s es).stats.successRate = s.stats.successRate := by
  induction es generalizing s with
  | nil => rfl
  | cons e es ih =>
      simp only [List.any_cons, Bool.or_eq_false_iff] at h
      show (simRun (simStep s e) es).stats.successRate = _
      rw [ih (simStep s e) h.2, simStep_keeps_successRate s e h.1]

/-- A successful execution completion sets successRate to exactly 100,
whatever the previous statistics were. -/
lemma simExecComplete_sets_100 (s : SimState) (oppId : String) :
    (simExecComplete s oppId true).stats.successRate = 100 := by
  unfold simExecComplete
  have hne : ((s.stats.tradesExecuted : ℚ) + 1) ≠ 0 := by positivity
  simp [div_self hne]

/-- Any run containing at least one successful completion ends with
successRate exactly 100. -/
lemma simRun_success_sets_100 (es : List SimEvent) (s : SimState)
    (h : es.any isSuccessEvent = true) :
    (simRun s es).stats.successRate = 100 := by
  induction es generalizing s with
  | nil => simp at h
  | cons e es ih =>
      show (simRun (simStep s e) es).stats.successRate = 100
      cases hes : es.any isSuccessEvent with
      | true => exact ih (simStep s e) hes
      | false =>
          simp only [List.any_cons, hes, Bool.or_false] at h
          rw [simRun_keeps_successRate es (simStep s e) hes]
          cases e with
          | tick now r1 r2 r3 => simp [isSuccessEvent] at h
          | toggleBot => simp [isSuccessEvent] at h
          | execStart oppId => simp [isSuccessEvent] at h
          | execComplete oppId success =>
              cases success with
              | false => simp [isSuccessEvent] at h
              | true => exact simExecComplete_sets_100 s oppId

/-- C10: in the simulated execution path, after any event sequence from the
initial dashboard state that contains at least one successful execution the
displayed successRate equals exactly 100 — the success update computes
((tradesExecuted + 1) / (tradesExecuted + 1)) * 100 and failed executions
never touch the statistic. -/
theorem sim_successRate_constant_100 (es : List SimEvent)
    (h : es.any isSuccessEvent = true) :
    (simRun initSimState es).stats.successRate = 100 :=
  simRun_success_sets_100 es initSimState h

/-- C10 witness: a single successful completion already pins the displayed
success rate at 100. -/
theorem sim_successRate_constant_100_witness :
    ([SimEvent.execComplete "opp1" true].any isSuccessEvent = true) ∧
    (simRun initSimState [SimEvent.execComplete "opp1" true]).stats.successRate = 100 :=
  ⟨rfl, sim_successRate_constant_100 [SimEvent.execComplete "opp1" true] rfl⟩

end TriArb
